import Mathlib

/-!
Verification of the Coderr marketplace backend (Django REST) against its
natural-language specification.  The Python source is shallowly embedded:
each Django model becomes a structure, the database a record of row lists
plus auto-increment counters, and each serializer/view method a pure
function over that state returning `Except ApiError`.  Decimal database
columns are modelled as `Rat`, integer columns as `Int`, primary keys as
`Nat`.
-/

namespace Coderr

/-- Django `auth.User` row (`django.contrib.auth.models.User`):
only the columns the embedded endpoints read. -/
structure User where
  id : Nat
  username : String
  email : String
  first_name : String
  last_name : String
  deriving Repr, DecidableEq

/-- `users_app.models.UserProfile`: one-to-one extension of `User`;
`user` stores the user id, `type` is `"customer"` or `"business"`. -/
structure UserProfile where
  user : Nat
  type : String
  location : String
  tel : String
  description : String
  working_hours : String
  deriving Repr, DecidableEq

/-- `offers_app.models.Offer` row. -/
structure Offer where
  id : Nat
  creator : Nat
  title : String
  description : String
  deriving Repr, DecidableEq

/-- `offers_app.models.OfferDetail` row: one pricing tier of an offer;
`offer` stores the parent offer id, `offer_type` is
`"basic"`, `"standard"` or `"premium"` (choice-validated). -/
structure OfferDetail where
  id : Nat
  offer : Nat
  title : String
  revisions : Int
  delivery_time_in_days : Int
  price : Rat
  features : List String
  offer_type : String
  deriving Repr, DecidableEq

/-- `orders_app.models.Order` row; `status` has choices
`in_progress` / `completed` / `cancelled`, default `in_progress`;
`created_at` is an `auto_now_add` timestamp (modelled as a tick). -/
structure Order where
  id : Nat
  buyer : Nat
  offer_detail : Nat
  status : String
  created_at : Nat
  deriving Repr, DecidableEq

/-- `reviews_app.models.Review` row; `Meta.unique_together =
['reviewer', 'business_user']` at the storage layer. -/
structure Review where
  id : Nat
  reviewer : Nat
  business_user : Nat
  rating : Int
  description : String
  deriving Repr, DecidableEq

/-- The relational state: one list per table plus the auto-increment
counters for primary keys and a logical clock for `auto_now_add`. -/
structure DB where
  users : List User
  profiles : List UserProfile
  offers : List Offer
  details : List OfferDetail
  orders : List Order
  reviews : List Review
  nextUserId : Nat
  nextOfferId : Nat
  nextDetailId : Nat
  nextOrderId : Nat
  nextReviewId : Nat
  now : Nat
  deriving Repr, DecidableEq

/-- DRF error taxonomy used by the embedded endpoints:
`validation` = 400 ValidationError, `permissionDenied` = 403
PermissionDenied, `notFound` = 404 NotFound. -/
inductive ApiError where
  | validation : String → ApiError
  | permissionDenied : String → ApiError
  | notFound : String → ApiError
  deriving Repr, DecidableEq

/-- `UserProfile.objects.get(user=u)`: the profile row of a user, if any
(the one-to-one link makes it unique in well-formed states). -/
def getProfile (db : DB) (userId : Nat) : Option UserProfile :=
  db.profiles.find? (fun p => p.user == userId)

/-- `offer.details.all()`: the tier rows belonging to an offer. -/
def offerDetails (db : DB) (offerId : Nat) : List OfferDetail :=
  db.details.filter (fun d => d.offer == offerId)

/-- Python's `min(xs) if xs else None` over a list. -/
def pyMin {α : Type} [LinearOrder α] : List α → Option α
  | [] => none
  | x :: xs => some (xs.foldl min x)

/-- `OfferListSerializer.get_min_price` (offers_app/serializers.py):
`prices = list(obj.details.values_list('price', flat=True));
return min(prices) if prices else None`. -/
def OfferListSerializer.get_min_price (db : DB) (obj : Offer) : Option Rat :=
  pyMin ((offerDetails db obj.id).map (fun d => d.price))

/-- `OfferListSerializer.get_min_delivery_time`. -/
def OfferListSerializer.get_min_delivery_time (db : DB) (obj : Offer) : Option Int :=
  pyMin ((offerDetails db obj.id).map (fun d => d.delivery_time_in_days))

/-- `OfferRetrieveSerializer.get_min_price`: same body as the list
serializer's method (duplicated in the source). -/
def OfferRetrieveSerializer.get_min_price (db : DB) (obj : Offer) : Option Rat :=
  pyMin ((offerDetails db obj.id).map (fun d => d.price))

/-- `OfferRetrieveSerializer.get_min_delivery_time`. -/
def OfferRetrieveSerializer.get_min_delivery_time (db : DB) (obj : Offer) : Option Int :=
  pyMin ((offerDetails db obj.id).map (fun d => d.delivery_time_in_days))

theorem pyMin_eq_min? {α : Type} [LinearOrder α] (l : List α) :
    pyMin l = l.min? := by
  cases l <;> rfl

theorem pyMin_eq_none_iff {α : Type} [LinearOrder α] (l : List α) :
    pyMin l = none ↔ l = [] := by
  rw [pyMin_eq_min?]; exact List.min?_eq_none_iff

theorem pyMin_eq_some_iff {α : Type} [LinearOrder α] (l : List α) (a : α) :
    pyMin l = some a ↔ a ∈ l ∧ ∀ b ∈ l, a ≤ b := by
  rw [pyMin_eq_min?]
  have anti : Std.Antisymm (fun (x y : α) => x ≤ y) :=
    ⟨by intro a b h h'; exact le_antisymm h h'⟩
  exact List.min?_eq_some_iff (fun x => le_refl x) (fun x y => min_choice x y)
    (fun x y z => le_min_iff)

/-- C3: for every offer serialized by the list or retrieve serializer,
`min_price` is the minimum price over the offer's current tiers and
`min_delivery_time` the minimum `delivery_time_in_days`; with zero tiers
both are `none` (serialization total, no crash), and the retrieve
serializer computes exactly what the list serializer computes. -/
theorem claim_C3_min_price_min_delivery (db : DB) (o : Offer) :
    (OfferRetrieveSerializer.get_min_price db o =
       OfferListSerializer.get_min_price db o ∧
     OfferRetrieveSerializer.get_min_delivery_time db o =
       OfferListSerializer.get_min_delivery_time db o) ∧
    (offerDetails db o.id = [] →
      OfferListSerializer.get_min_price db o = none ∧
      OfferListSerializer.get_min_delivery_time db o = none) ∧
    (∀ m : Rat, OfferListSerializer.get_min_price db o = some m ↔
      (m ∈ (offerDetails db o.id).map (fun d => d.price) ∧
       ∀ p ∈ (offerDetails db o.id).map (fun d => d.price), m ≤ p)) ∧
    (∀ t : Int, OfferListSerializer.get_min_delivery_time db o = some t ↔
      (t ∈ (offerDetails db o.id).map (fun d => d.delivery_time_in_days) ∧
       ∀ u ∈ (offerDetails db o.id).map (fun d => d.delivery_time_in_days),
         t ≤ u)) := by
  refine ⟨⟨rfl, rfl⟩, ?_, ?_, ?_⟩
  · intro h
    unfold OfferListSerializer.get_min_price
      OfferListSerializer.get_min_delivery_time
    rw [h]
    exact ⟨rfl, rfl⟩
  · intro m
    unfold OfferListSerializer.get_min_price
    exact pyMin_eq_some_iff _ m
  · intro t
    unfold OfferListSerializer.get_min_delivery_time
    exact pyMin_eq_some_iff _ t

/-- Concrete state for the C3 witness: one offer with tiers priced
20 and 10 and delivery times 7 and 5. -/
def dbC3 : DB :=
  { users := [], profiles := []
    offers := [⟨1, 7, "Logo", "d"⟩]
    details := [⟨1, 1, "Basic", 2, 7, 20, [], "basic"⟩,
                ⟨2, 1, "Standard", 3, 5, 10, [], "standard"⟩]
    orders := [], reviews := []
    nextUserId := 8, nextOfferId := 2, nextDetailId := 3
    nextOrderId := 1, nextReviewId := 1, now := 0 }

theorem claim_C3_min_price_min_delivery_witness :
    OfferListSerializer.get_min_price dbC3 ⟨1, 7, "Logo", "d"⟩ = some 10 ∧
    OfferListSerializer.get_min_delivery_time dbC3 ⟨1, 7, "Logo", "d"⟩ =
      some 5 :=
  ⟨((claim_C3_min_price_min_delivery dbC3 ⟨1, 7, "Logo", "d"⟩).2.2.1 10).mpr
      (by decide),
   ((claim_C3_min_price_min_delivery dbC3 ⟨1, 7, "Logo", "d"⟩).2.2.2 5).mpr
      (by decide)⟩

/-- Validated data of one nested `OfferDetailSerializer` item in an
offer-creation payload. -/
structure DetailPayload where
  title : String
  revisions : Int
  delivery_time_in_days : Int
  price : Rat
  features : List String
  offer_type : String
  deriving Repr, DecidableEq

/-- Python's string `<`: lexicographic comparison of the underlying
character sequences by Unicode code point. -/
def charListLt : List Char → List Char → Bool
  | _, [] => false
  | [], _ :: _ => true
  | a :: as, b :: bs =>
      if a.toNat < b.toNat then true
      else if b.toNat < a.toNat then false
      else charListLt as bs

/-- Python's string `a <= b`, i.e. `not (b < a)`. -/
def pyStrLe (a b : String) : Prop :=
  charListLt b.data a.data = false

instance : DecidableRel pyStrLe := fun a b =>
  inferInstanceAs (Decidable (charListLt b.data a.data = false))

/-- Python's `sorted` on a list of strings (ascending lexicographic by
code point). -/
def pySorted (l : List String) : List String :=
  List.insertionSort pyStrLe l

theorem charListLt_asymm : ∀ (as bs : List Char),
    charListLt as bs = true → charListLt bs as = false := by
  intro as
  induction as with
  | nil =>
      intro bs h
      cases bs with
      | nil => simp [charListLt] at h
      | cons b bs => simp [charListLt]
  | cons a as ih =>
      intro bs h
      cases bs with
      | nil => simp [charListLt] at h
      | cons b bs =>
          simp only [charListLt] at h ⊢
          by_cases h1 : a.toNat < b.toNat
          · have h2 : ¬ b.toNat < a.toNat := by omega
            simp [h1, h2]
          · by_cases h2 : b.toNat < a.toNat
            · simp [h1, h2] at h
            · simp only [h1, h2, if_false] at h ⊢
              exact ih bs h

theorem charListLt_trans : ∀ (as bs cs : List Char),
    charListLt as bs = true → charListLt bs cs = true →
      charListLt as cs = true := by
  intro as
  induction as with
  | nil =>
      intro bs cs h1 h2
      cases bs with
      | nil => simp [charListLt] at h1
      | cons b bs =>
          cases cs with
          | nil => simp [charListLt] at h2
          | cons c cs => simp [charListLt]
  | cons a as ih =>
      intro bs cs h1 h2
      cases bs with
      | nil => simp [charListLt] at h1
      | cons b bs =>
          cases cs with
          | nil => simp [charListLt] at h2
          | cons c cs =>
              simp only [charListLt] at h1 h2 ⊢
              by_cases hab : a.toNat < b.toNat
              · by_cases hbc : b.toNat < c.toNat
                · have : a.toNat < c.toNat := by omega
                  simp [this]
                · by_cases hcb : c.toNat < b.toNat
                  · simp [hbc, hcb] at h2
                  · have : a.toNat < c.toNat := by omega
                    simp [this]
              · by_cases hba : b.toNat < a.toNat
                · simp [hab, hba] at h1
                · by_cases hbc : b.toNat < c.toNat
                  · have : a.toNat < c.toNat := by omega
                    simp [this]
                  · by_cases hcb : c.toNat < b.toNat
                    · simp [hbc, hcb] at h2
                    · have hac : ¬ a.toNat < c.toNat := by omega
                      have hca : ¬ c.toNat < a.toNat := by omega
                      simp only [hab, hba, if_false] at h1
                      simp only [hbc, hcb, if_false] at h2
                      simp only [hac, hca, if_false]
                      exact ih bs cs h1 h2

theorem charListLt_connex : ∀ (as bs : List Char),
    charListLt as bs = false → charListLt bs as = false → as = bs := by
  intro as
  induction as with
  | nil =>
      intro bs h1 _
      cases bs with
      | nil => rfl
      | cons b bs => simp [charListLt] at h1
  | cons a as ih =>
      intro bs h1 h2
      cases bs with
      | nil => simp [charListLt] at h2
      | cons b bs =>
          simp only [charListLt] at h1 h2
          by_cases hab : a.toNat < b.toNat
          · simp [hab] at h1
          · by_cases hba : b.toNat < a.toNat
            · simp [hba, hab] at h2
            · simp only [hab, hba, if_false] at h1 h2
              have heq : a = b := by
                have : a.toNat = b.toNat := by omega
                have := congrArg Char.ofNat this
                rwa [Char.ofNat_toNat, Char.ofNat_toNat] at this
              rw [heq, ih bs h1 h2]

instance : IsTotal String pyStrLe := by
  constructor
  intro a b
  unfold pyStrLe
  by_cases h : charListLt b.data a.data = true
  · exact Or.inr (charListLt_asymm _ _ h)
  · exact Or.inl (Bool.not_eq_true _ ▸ h)

instance : IsTrans String pyStrLe := by
  constructor
  intro a b c h1 h2
  unfold pyStrLe at h1 h2 ⊢
  by_cases hca : charListLt c.data a.data = true
  · by_cases hbc : charListLt b.data c.data = true
    · exact absurd (charListLt_trans _ _ _ hbc hca) (by simp [h1])
    · have hbc' : charListLt b.data c.data = false := by
        simpa using hbc
      have : b.data = c.data := charListLt_connex _ _ hbc' h2
      rw [← this] at hca
      exact absurd hca (by simp [h1])
  · simpa using hca

instance : IsAntisymm String pyStrLe := by
  constructor
  intro a b h1 h2
  unfold pyStrLe at h1 h2
  have : a.data = b.data := charListLt_connex a.data b.data h2 h1
  cases a
  cases b
  exact congrArg String.mk this

/-- `OfferWriteSerializer.validate_details`: for a POST request the
details list must have length 3 and its `offer_type`s, sorted, must be
`['basic', 'premium', 'standard']`; every detail must carry a truthy
`offer_type` (the trailing for-loop, here nested into both branches of
the method test). -/
def validate_details (requestMethod : String) (value : List DetailPayload) :
    Except ApiError (List DetailPayload) :=
  if requestMethod = "POST" then
    if value.length ≠ 3 then
      Except.error (ApiError.validation "An offer must have exactly 3 details.")
    else if pySorted (value.map (fun d => d.offer_type)) ≠
        ["basic", "premium", "standard"] then
      Except.error
        (ApiError.validation
          "Details must include offer_type: basic, standard, premium.")
    else if value.any (fun d => d.offer_type == "") then
      Except.error (ApiError.validation "Each detail must include offer_type.")
    else Except.ok value
  else
    if value.any (fun d => d.offer_type == "") then
      Except.error (ApiError.validation "Each detail must include offer_type.")
    else Except.ok value

/-- Field-level validation the nested `OfferDetailSerializer` performs
before `validate_details` runs: `offer_type` is a `ChoiceField` over
basic/standard/premium (`OfferDetail.OFFER_TYPE_CHOICES`). -/
def detail_choice_ok (d : DetailPayload) : Bool :=
  d.offer_type == "basic" || d.offer_type == "standard" ||
    d.offer_type == "premium"

/-- Full `OfferWriteSerializer` validation of the `details` field:
choice validation of each item, then `validate_details`. -/
def offer_details_run_validation (requestMethod : String)
    (value : List DetailPayload) : Except ApiError (List DetailPayload) :=
  if value.all detail_choice_ok then validate_details requestMethod value
  else Except.error (ApiError.validation "not a valid choice.")

/-- The `for detail_data in details_data: OfferDetail.objects.create(...)`
loop of `OfferWriteSerializer.create`: each insert takes the next
auto-increment primary key. -/
def attach_ids (offerId : Nat) : Nat → List DetailPayload → List OfferDetail
  | _, [] => []
  | n, d :: ds =>
      OfferDetail.mk n offerId d.title d.revisions d.delivery_time_in_days
        d.price d.features d.offer_type :: attach_ids offerId (n + 1) ds

/-- `OfferWriteSerializer.create` on validated data: insert the `Offer`
row, then one `OfferDetail` row per detail (sequential
`objects.create` calls; the source has no transaction block). -/
def OfferWriteSerializer.create (db : DB) (creator : Nat)
    (title description : String) (details_data : List DetailPayload) :
    DB × Offer :=
  let offer : Offer := ⟨db.nextOfferId, creator, title, description⟩
  let newDetails := attach_ids offer.id db.nextDetailId details_data
  ({ db with
      offers := db.offers ++ [offer]
      details := db.details ++ newDetails
      nextOfferId := db.nextOfferId + 1
      nextDetailId := db.nextDetailId + details_data.length }, offer)

/-- `OfferViewSet.create`: look up the acting user's profile (404 when
missing), require role business (403), run serializer validation, then
persist via `OfferWriteSerializer.create`. -/
def create_offer (db : DB) (actingUser : Nat) (title description : String)
    (details_data : List DetailPayload) : Except ApiError (DB × Offer) :=
  match getProfile db actingUser with
  | none => Except.error (ApiError.notFound "UserProfile not found.")
  | some profile =>
    if profile.type ≠ "business" then
      Except.error
        (ApiError.permissionDenied
          "Only users with type business may create offers.")
    else
      match offer_details_run_validation "POST" details_data with
      | Except.error e => Except.error e
      | Except.ok value =>
          Except.ok (OfferWriteSerializer.create db actingUser title
            description value)

theorem pySorted_eq_target_iff (l : List String) :
    pySorted l = ["basic", "premium", "standard"] ↔
      l.Perm ["basic", "premium", "standard"] := by
  constructor
  · intro h
    have p : (pySorted l).Perm l := List.perm_insertionSort pyStrLe l
    rw [h] at p
    exact p.symm
  · intro h
    refine List.eq_of_perm_of_sorted
      ((List.perm_insertionSort pyStrLe l).trans h)
      (List.sorted_insertionSort pyStrLe l) ?_
    decide

theorem attach_ids_offer (offerId n : Nat) (ds : List DetailPayload) :
    ∀ x ∈ attach_ids offerId n ds, x.offer = offerId := by
  induction ds generalizing n with
  | nil => intro x hx; cases hx
  | cons d ds ih =>
      intro x hx
      cases hx with
      | head => rfl
      | tail _ hx => exact ih _ x hx

theorem attach_ids_types (offerId n : Nat) (ds : List DetailPayload) :
    (attach_ids offerId n ds).map (fun x => x.offer_type) =
      ds.map (fun d => d.offer_type) := by
  induction ds generalizing n with
  | nil => rfl
  | cons d ds ih => simp [attach_ids, ih]

theorem validate_details_post_ok {value out : List DetailPayload}
    (h : validate_details "POST" value = Except.ok out) :
    out = value ∧ value.length = 3 ∧
      pySorted (value.map (fun d => d.offer_type)) =
        ["basic", "premium", "standard"] := by
  unfold validate_details at h
  rw [if_pos rfl] at h
  by_cases h1 : value.length ≠ 3
  · rw [if_pos h1] at h
    cases h
  · rw [if_neg h1] at h
    by_cases h2 : pySorted (value.map (fun d => d.offer_type)) ≠
        ["basic", "premium", "standard"]
    · rw [if_pos h2] at h
      cases h
    · rw [if_neg h2] at h
      by_cases h3 : value.any (fun d => d.offer_type == "") = true
      · rw [if_pos h3] at h
        cases h
      · rw [if_neg h3] at h
        injection h with h
        exact ⟨h.symm, by omega, not_not.mp h2⟩

theorem attach_ids_length (offerId n : Nat) (ds : List DetailPayload) :
    (attach_ids offerId n ds).length = ds.length := by
  induction ds generalizing n with
  | nil => rfl
  | cons d ds ih => simp [attach_ids, ih]

theorem create_offer_business (db : DB) (u : Nat) (t d : String)
    (dd : List DetailPayload) (p : UserProfile)
    (hp : getProfile db u = some p) (hb : p.type = "business") :
    create_offer db u t d dd =
      match offer_details_run_validation "POST" dd with
      | Except.error e => Except.error e
      | Except.ok value =>
          Except.ok (OfferWriteSerializer.create db u t d value) := by
  unfold create_offer
  simp only [hp]
  rw [if_neg (fun hn => hn hb)]

/-- C2: with a business acting user, a successful `create_offer` always
persists exactly three tiers for the new offer whose `offer_type`s are a
permutation of basic/premium/standard, and any payload whose details are
not such a permutation (wrong length or wrong type multiset) is rejected
with a `ValidationError` (an `Except.error`, which persists nothing). -/
theorem claim_C2_offer_tiers_exactly_basic_standard_premium
    (db : DB) (u : Nat) (t d : String) (dd : List DetailPayload)
    (p : UserProfile) (hp : getProfile db u = some p)
    (hb : p.type = "business")
    (hwf : ∀ x ∈ db.details, x.offer < db.nextOfferId) :
    (∀ db' o, create_offer db u t d dd = Except.ok (db', o) →
        ((offerDetails db' o.id).map (fun x => x.offer_type)).Perm
          ["basic", "premium", "standard"] ∧
        (offerDetails db' o.id).length = 3) ∧
    (¬ (dd.map (fun x => x.offer_type)).Perm
          ["basic", "premium", "standard"] →
        ∃ msg, create_offer db u t d dd =
          Except.error (ApiError.validation msg)) := by
  constructor
  · intro db' o h
    rw [create_offer_business db u t d dd p hp hb] at h
    cases heq : offer_details_run_validation "POST" dd with
    | error e => rw [heq] at h; cases h
    | ok value =>
        rw [heq] at h
        injection h with h
        have hdb' : db' = (OfferWriteSerializer.create db u t d value).1 :=
          congrArg Prod.fst h.symm
        have ho : o = (OfferWriteSerializer.create db u t d value).2 :=
          congrArg Prod.snd h.symm
        unfold offer_details_run_validation at heq
        by_cases hall : dd.all detail_choice_ok
        · rw [if_pos hall] at heq
          obtain ⟨hvd, hlen, hsort⟩ := validate_details_post_ok heq
          subst hvd
          subst hdb'
          subst ho
          have hset : offerDetails
              (OfferWriteSerializer.create db u t d value).1
              (OfferWriteSerializer.create db u t d value).2.id =
              attach_ids db.nextOfferId db.nextDetailId value := by
            unfold OfferWriteSerializer.create offerDetails
            simp only [List.filter_append]
            rw [List.filter_eq_nil_iff.mpr
              (fun x hx => by
                have := hwf x hx
                simp only [beq_iff_eq]
                omega),
              List.filter_eq_self.mpr
              (fun x hx => by
                simp only [beq_iff_eq]
                exact attach_ids_offer _ _ _ x hx)]
            rfl
          rw [hset, attach_ids_types]
          exact ⟨(pySorted_eq_target_iff _).mp hsort,
            by rw [attach_ids_length]; exact hlen⟩
        · rw [if_neg hall] at heq
          cases heq
  · intro hnp
    have hsort : pySorted (dd.map (fun x => x.offer_type)) ≠
        ["basic", "premium", "standard"] := by
      intro hs
      exact hnp ((pySorted_eq_target_iff _).mp hs)
    rw [create_offer_business db u t d dd p hp hb]
    unfold offer_details_run_validation
    by_cases hall : dd.all detail_choice_ok
    · rw [if_pos hall]
      unfold validate_details
      rw [if_pos rfl]
      by_cases hlen : dd.length ≠ 3
      · rw [if_pos hlen]
        exact ⟨_, rfl⟩
      · rw [if_neg hlen, if_pos hsort]
        exact ⟨_, rfl⟩
    · rw [if_neg hall]
      exact ⟨_, rfl⟩

/-- Concrete state for the C2 witness: one business user, no offers. -/
def dbC2 : DB :=
  { users := [⟨9, "biz", "b@x", "", ""⟩]
    profiles := [⟨9, "business", "", "", "", ""⟩]
    offers := [], details := [], orders := [], reviews := []
    nextUserId := 10, nextOfferId := 1, nextDetailId := 1
    nextOrderId := 1, nextReviewId := 1, now := 0 }

/-- A valid 3-tier creation payload for the C2 witness. -/
def ddC2 : List DetailPayload :=
  [⟨"B", 2, 7, 100, [], "basic"⟩,
   ⟨"S", 3, 5, 200, [], "standard"⟩,
   ⟨"P", 5, 3, 300, [], "premium"⟩]

/-- The state after the C2 witness creation succeeds. -/
def dbC2' : DB :=
  { users := [⟨9, "biz", "b@x", "", ""⟩]
    profiles := [⟨9, "business", "", "", "", ""⟩]
    offers := [⟨1, 9, "Logo", "d"⟩]
    details := [⟨1, 1, "B", 2, 7, 100, [], "basic"⟩,
                ⟨2, 1, "S", 3, 5, 200, [], "standard"⟩,
                ⟨3, 1, "P", 5, 3, 300, [], "premium"⟩]
    orders := [], reviews := []
    nextUserId := 10, nextOfferId := 2, nextDetailId := 4
    nextOrderId := 1, nextReviewId := 1, now := 0 }

theorem claim_C2_offer_tiers_exactly_basic_standard_premium_witness :
    getProfile dbC2 9 = some ⟨9, "business", "", "", "", ""⟩ ∧
    ((offerDetails dbC2' 1).map (fun x => x.offer_type)).Perm
      ["basic", "premium", "standard"] :=
  ⟨rfl,
   ((claim_C2_offer_tiers_exactly_basic_standard_premium dbC2 9 "Logo" "d"
        ddC2 ⟨9, "business", "", "", "", ""⟩ rfl rfl
        (by intro x hx; simp [dbC2] at hx)).1
      dbC2' ⟨1, 9, "Logo", "d"⟩ rfl).1⟩

/-- Validated input of `OrderSerializer` for POST /api/orders/:
`offer_detail_id` (required `PrimaryKeyRelatedField`) and `status`,
which is a writable serializer field (only `created_at`/`updated_at`
are read-only) and absent means the model default applies. -/
structure OrderPayload where
  offer_detail_id : Nat
  status : Option String
  deriving Repr, DecidableEq

/-- `Order.STATUS_CHOICES` (orders_app/models.py). -/
def statusChoices : List String := ["in_progress", "completed", "cancelled"]

/-- `OrderSerializer` field validation: `offer_detail_id` must reference
an existing `OfferDetail` row; a supplied `status` must be one of the
model's choices. -/
def order_serializer_validate (db : DB) (payload : OrderPayload) :
    Except ApiError OrderPayload :=
  if (db.details.find? (fun d => d.id == payload.offer_detail_id)).isNone then
    Except.error (ApiError.validation "Invalid pk")
  else
    match payload.status with
    | some s =>
        if statusChoices.contains s then Except.ok payload
        else Except.error (ApiError.validation "not a valid choice.")
    | none => Except.ok payload

/-- `OrderViewSet.create` + `perform_create`: serializer validation runs
first (DRF `CreateModelMixin`), then the customer-role check, then
`serializer.save(buyer=request.user)`; an absent `status` gets the
model default `in_progress`, a supplied one is persisted as given. -/
def create_order (db : DB) (actingUser : Nat) (payload : OrderPayload) :
    Except ApiError (DB × Order) :=
  match order_serializer_validate db payload with
  | Except.error e => Except.error e
  | Except.ok v =>
    match getProfile db actingUser with
    | none => Except.error (ApiError.permissionDenied "UserProfile not found.")
    | some profile =>
      if profile.type ≠ "customer" then
        Except.error
          (ApiError.permissionDenied
            "Only users with type customer may create orders.")
      else
        let order : Order := ⟨db.nextOrderId, actingUser, v.offer_detail_id,
          v.status.getD "in_progress", db.now⟩
        Except.ok ({ db with
          orders := db.orders ++ [order]
          nextOrderId := db.nextOrderId + 1 }, order)

/-- Concrete state for C4: business user 9 with offer 1 / tier 1, and
customer user 2. -/
def dbC4 : DB :=
  { users := [⟨9, "biz", "b@x", "", ""⟩, ⟨2, "cust", "c@x", "", ""⟩]
    profiles := [⟨9, "business", "", "", "", ""⟩,
                 ⟨2, "customer", "", "", "", ""⟩]
    offers := [⟨1, 9, "Logo", "d"⟩]
    details := [⟨1, 1, "B", 2, 7, 100, [], "basic"⟩]
    orders := [], reviews := []
    nextUserId := 10, nextOfferId := 2, nextDetailId := 2
    nextOrderId := 1, nextReviewId := 1, now := 5 }

/-- C4 counterexample: the claim says a created order has status
`in_progress` regardless of any other input, but `status` is writable:
customer 2 posting `offer_detail_id=1, status=completed` gets an order
persisted with status `completed`. -/
theorem claim_C4_counterexample_status_not_forced :
    create_order dbC4 2 ⟨1, some "completed"⟩ =
      Except.ok ({ dbC4 with
        orders := [⟨1, 2, 1, "completed", 5⟩]
        nextOrderId := 2 }, ⟨1, 2, 1, "completed", 5⟩) ∧
    ("completed" : String) ≠ "in_progress" :=
  ⟨rfl, by decide⟩

/-- C4 (amended): for a payload passing serializer validation,
`create_order` fails with PermissionDenied unless the acting user has a
customer profile; on success the persisted order references the given
tier, has `buyer` equal to the acting user, and has the supplied status
when one was given and `in_progress` otherwise. -/
theorem claim_C4_create_order_amended (db : DB) (u : Nat)
    (payload : OrderPayload)
    (hv : order_serializer_validate db payload = Except.ok payload) :
    (getProfile db u = none →
      create_order db u payload =
        Except.error (ApiError.permissionDenied "UserProfile not found.")) ∧
    (∀ p, getProfile db u = some p → p.type ≠ "customer" →
      create_order db u payload =
        Except.error (ApiError.permissionDenied
          "Only users with type customer may create orders.")) ∧
    (∀ db' o, create_order db u payload = Except.ok (db', o) →
      o.buyer = u ∧ o.offer_detail = payload.offer_detail_id ∧
      o.status = payload.status.getD "in_progress" ∧
      o ∈ db'.orders) := by
  refine ⟨?_, ?_, ?_⟩
  · intro hn
    unfold create_order
    rw [hv]
    simp only [hn]
  · intro p hp hnc
    unfold create_order
    rw [hv]
    simp only [hp]
    rw [if_pos hnc]
  · intro db' o h
    unfold create_order at h
    rw [hv] at h
    cases hp : getProfile db u with
    | none => simp only [hp] at h; cases h
    | some p =>
        simp only [hp] at h
        by_cases hc : p.type ≠ "customer"
        · rw [if_pos hc] at h; cases h
        · rw [if_neg hc] at h
          injection h with h
          have hdb' : db' = _ := congrArg Prod.fst h.symm
          have ho : o = _ := congrArg Prod.snd h.symm
          subst hdb'
          subst ho
          exact ⟨rfl, rfl, rfl, by simp⟩

theorem claim_C4_create_order_amended_witness :
    order_serializer_validate dbC4 ⟨1, none⟩ = Except.ok ⟨1, none⟩ ∧
    (⟨1, 2, 1, "in_progress", 5⟩ : Order).buyer = 2 ∧
    (⟨1, 2, 1, "in_progress", 5⟩ : Order).status = "in_progress" :=
  ⟨rfl,
   ((claim_C4_create_order_amended dbC4 2 ⟨1, none⟩ rfl).2.2
      ({ dbC4 with orders := [⟨1, 2, 1, "in_progress", 5⟩], nextOrderId := 2 })
      ⟨1, 2, 1, "in_progress", 5⟩ rfl).1,
   ((claim_C4_create_order_amended dbC4 2 ⟨1, none⟩ rfl).2.2
      ({ dbC4 with orders := [⟨1, 2, 1, "in_progress", 5⟩], nextOrderId := 2 })
      ⟨1, 2, 1, "in_progress", 5⟩ rfl).2.2.1⟩

/-- A partial-update payload for `ReviewSerializer`: `business_user`,
`rating` and `description` are the writable fields; `reviewer` is
read-only and can never be supplied. -/
structure ReviewPatch where
  business_user : Option Nat
  rating : Option Int
  description : Option String
  deriving Repr, DecidableEq

/-- `ReviewViewSet` PATCH /api/reviews/{id}/ as wired in
reviews_app/api/views.py: `permission_classes = [IsAuthenticated]` with
no object-level or ownership check, so `actingUser` (the authenticated
request user) is looked at by no branch; a supplied `business_user`
must reference an existing user (`PrimaryKeyRelatedField`), and the
patch is applied with `reviewer` untouched. -/
def update_review (db : DB) (actingUser : Nat) (reviewId : Nat)
    (patch : ReviewPatch) : Except ApiError (DB × Review) :=
  match db.reviews.find? (fun r => r.id == reviewId) with
  | none => Except.error (ApiError.notFound "Not found.")
  | some r =>
      if patch.business_user.any
          (fun b => (db.users.find? (fun u => u.id == b)).isNone) then
        Except.error (ApiError.validation "Invalid pk")
      else
        let r' : Review :=
          { r with
              business_user := patch.business_user.getD r.business_user
              rating := patch.rating.getD r.rating
              description := patch.description.getD r.description }
        Except.ok ({ db with
          reviews := db.reviews.map (fun x => if x.id == reviewId then r' else x) },
          r')

/-- `ReviewViewSet` DELETE /api/reviews/{id}/ as wired in the live code:
again only `IsAuthenticated`, no reviewer check; `actingUser` is
unused. -/
def delete_review (db : DB) (actingUser : Nat) (reviewId : Nat) :
    Except ApiError DB :=
  match db.reviews.find? (fun r => r.id == reviewId) with
  | none => Except.error (ApiError.notFound "Not found.")
  | some _ =>
      Except.ok { db with
        reviews := db.reviews.filter (fun x => !(x.id == reviewId)) }

/-- Concrete state for C1: review 1 written by reviewer 1 about
business user 9; user 2 is another authenticated customer. -/
def dbC1 : DB :=
  { users := [⟨9, "biz", "b@x", "", ""⟩, ⟨1, "alice", "a@x", "", ""⟩,
              ⟨2, "mallory", "m@x", "", ""⟩]
    profiles := [⟨9, "business", "", "", "", ""⟩,
                 ⟨1, "customer", "", "", "", ""⟩,
                 ⟨2, "customer", "", "", "", ""⟩]
    offers := [], details := [], orders := []
    reviews := [⟨1, 1, 9, 5, "Great!"⟩]
    nextUserId := 10, nextOfferId := 1, nextDetailId := 1
    nextOrderId := 1, nextReviewId := 2, now := 0 }

/-- C1 evaluated at the failing input: review 1 belongs to reviewer 1,
yet acting user 2 (not the reviewer) both PATCHes the rating down to 1
and DELETEs the review, and the live view accepts both instead of
raising PermissionError. -/
theorem claim_C1_non_reviewer_can_mutate :
    (dbC1.reviews.find? (fun r => r.id == 1)).map (fun r => r.reviewer) =
      some 1 ∧
    (1 : Nat) ≠ 2 ∧
    update_review dbC1 2 1 ⟨none, some 1, none⟩ =
      Except.ok ({ dbC1 with reviews := [⟨1, 1, 9, 1, "Great!"⟩] },
        ⟨1, 1, 9, 1, "Great!"⟩) ∧
    delete_review dbC1 2 1 = Except.ok { dbC1 with reviews := [] } :=
  ⟨rfl, by decide, rfl, rfl⟩

/-- A partial-update payload for `ProfileDetailSerializer`: `email`,
`first_name`, `last_name` write through to the `User` row; `location`,
`tel`, `description`, `working_hours` and `type` are profile fields.
`type` is in `Meta.fields` and NOT in `read_only_fields`, so it is a
writable choice field; `user`/`username`/`created_at` are read-only
(the avatar file field is an opaque blob, out of scope). -/
structure ProfilePatch where
  email : Option String
  first_name : Option String
  last_name : Option String
  location : Option String
  tel : Option String
  description : Option String
  working_hours : Option String
  type : Option String
  deriving Repr, DecidableEq

/-- `ProfileDetailView.patch` + `ProfileDetailSerializer.update`
(users_app/api): the ownership check (`request.user.id != pk` → 403)
runs first, then the profile lookup (404), then field validation
(`type` must be one of the model choices), then the update writes the
user-sourced fields to the `User` row and every remaining validated
field — `type` included — onto the profile. -/
def patch_profile (db : DB) (actingUser pk : Nat) (patch : ProfilePatch) :
    Except ApiError (DB × UserProfile) :=
  if actingUser ≠ pk then
    Except.error
      (ApiError.permissionDenied
        "You do not have permission to edit this profile.")
  else
    match db.profiles.find? (fun p => p.user == pk) with
    | none => Except.error (ApiError.notFound "UserProfile not found")
    | some profile =>
        if patch.type.any
            (fun t => !(t == "customer" || t == "business")) then
          Except.error (ApiError.validation "not a valid choice.")
        else
          let users' := db.users.map (fun u =>
            if u.id == pk then
              { u with
                  email := patch.email.getD u.email
                  first_name := patch.first_name.getD u.first_name
                  last_name := patch.last_name.getD u.last_name }
            else u)
          let profile' : UserProfile :=
            { profile with
                location := patch.location.getD profile.location
                tel := patch.tel.getD profile.tel
                description := patch.description.getD profile.description
                working_hours := patch.working_hours.getD profile.working_hours
                type := patch.type.getD profile.type }
          Except.ok ({ db with
            users := users'
            profiles := db.profiles.map (fun p =>
              if p.user == pk then profile' else p) }, profile')

/-- Concrete state for C5: user 1 registered as a customer. -/
def dbC5 : DB :=
  { users := [⟨1, "alice", "a@x", "", ""⟩]
    profiles := [⟨1, "customer", "", "", "", ""⟩]
    offers := [], details := [], orders := [], reviews := []
    nextUserId := 2, nextOfferId := 1, nextDetailId := 1
    nextOrderId := 1, nextReviewId := 1, now := 0 }

/-- C5 counterexample: the claim says the role never changes, but the
owner's own PATCH supplying `type` flips the stored role from customer
to business. -/
theorem claim_C5_counterexample_owner_changes_role :
    (getProfile dbC5 1).map (fun p => p.type) = some "customer" ∧
    patch_profile dbC5 1 1
        ⟨none, none, none, none, none, none, none, some "business"⟩ =
      Except.ok ({ dbC5 with profiles := [⟨1, "business", "", "", "", ""⟩] },
        ⟨1, "business", "", "", "", ""⟩) ∧
    ("business" : String) ≠ "customer" :=
  ⟨rfl, rfl, by decide⟩

/-- `UserProfileViewSet.partial_update` (users_app/api/views.py),
exposed as PATCH /api/profiles/{pk}/ by the `DefaultRouter`
registration in users_app/api/urls.py: a `ModelViewSet` with
`queryset = UserProfile.objects.all()`, only
`permission_classes = [IsAuthenticated]`, no ownership or object-level
check, and the same writable-`type` `ProfileDetailSerializer` (so its
`update` is the identical write path as `patch_profile`'s). The route
keys by the profile row's primary key, identified here with the
profile's user id through the one-to-one user link. `actingUser` is
the authenticated request user, read by no branch. -/
def profiles_viewset_patch (db : DB) (actingUser pk : Nat)
    (patch : ProfilePatch) : Except ApiError (DB × UserProfile) :=
  match db.profiles.find? (fun p => p.user == pk) with
  | none => Except.error (ApiError.notFound "Not found.")
  | some profile =>
      if patch.type.any
          (fun t => !(t == "customer" || t == "business")) then
        Except.error (ApiError.validation "not a valid choice.")
      else
        let users' := db.users.map (fun u =>
          if u.id == pk then
            { u with
                email := patch.email.getD u.email
                first_name := patch.first_name.getD u.first_name
                last_name := patch.last_name.getD u.last_name }
          else u)
        let profile' : UserProfile :=
          { profile with
              location := patch.location.getD profile.location
              tel := patch.tel.getD profile.tel
              description := patch.description.getD profile.description
              working_hours := patch.working_hours.getD profile.working_hours
              type := patch.type.getD profile.type }
        Except.ok ({ db with
          users := users'
          profiles := db.profiles.map (fun p =>
            if p.user == pk then profile' else p) }, profile')

/-- C5 (amended): the stored role is mutable, with a gate that differs
per route.  On PATCH /api/profile/{user_id}/ any non-owner fails with
PermissionDenied, and an owner's patch changes the role exactly when it
supplies `type` (validated against customer/business).  On the router's
PATCH /api/profiles/{pk}/ there is no ownership check at all — the
outcome is identical for every authenticated acting user — and a patch
supplying a valid `type` overwrites the target profile's role the same
way; a patch without `type` leaves the role unchanged on either
endpoint. -/
theorem claim_C5_role_mutable_via_patch (db : DB)
    (actingUser pk : Nat) (patch : ProfilePatch) :
    (actingUser ≠ pk →
      patch_profile db actingUser pk patch =
        Except.error (ApiError.permissionDenied
          "You do not have permission to edit this profile.")) ∧
    (∀ db' p', patch_profile db actingUser pk patch =
        Except.ok (db', p') →
      actingUser = pk ∧
      (patch.type = none →
        (getProfile db pk).map (fun p => p.type) = some p'.type) ∧
      (∀ t, patch.type = some t →
        p'.type = t ∧ (t = "customer" ∨ t = "business"))) ∧
    (∀ otherUser,
      profiles_viewset_patch db actingUser pk patch =
        profiles_viewset_patch db otherUser pk patch) ∧
    (∀ db' p', profiles_viewset_patch db actingUser pk patch =
        Except.ok (db', p') →
      (patch.type = none →
        (getProfile db pk).map (fun p => p.type) = some p'.type) ∧
      (∀ t, patch.type = some t →
        p'.type = t ∧ (t = "customer" ∨ t = "business"))) := by
  refine ⟨?_, ?_, fun otherUser => rfl, ?_⟩
  · intro hne
    unfold patch_profile
    rw [if_pos hne]
  · intro db' p' h
    unfold patch_profile at h
    by_cases hne : actingUser ≠ pk
    · rw [if_pos hne] at h; cases h
    · rw [if_neg hne] at h
      refine ⟨not_ne_iff.mp hne, ?_⟩
      cases hp : db.profiles.find? (fun p => p.user == pk) with
      | none => simp only [hp] at h; cases h
      | some profile =>
          simp only [hp] at h
          by_cases hty : patch.type.any
              (fun t => !(t == "customer" || t == "business")) = true
          · rw [if_pos hty] at h; cases h
          · rw [if_neg hty] at h
            injection h with h
            have hp' : p' = _ := congrArg Prod.snd h.symm
            subst hp'
            constructor
            · intro hnone
              unfold getProfile
              rw [hp, hnone]
              rfl
            · intro t ht
              rw [ht]
              refine ⟨rfl, ?_⟩
              rw [ht] at hty
              simp [Option.any] at hty
              exact or_iff_not_imp_left.mpr hty
  · intro db' p' h
    unfold profiles_viewset_patch at h
    cases hp : db.profiles.find? (fun p => p.user == pk) with
    | none => simp only [hp] at h; cases h
    | some profile =>
        simp only [hp] at h
        by_cases hty : patch.type.any
            (fun t => !(t == "customer" || t == "business")) = true
        · rw [if_pos hty] at h; cases h
        · rw [if_neg hty] at h
          injection h with h
          have hp' : p' = _ := congrArg Prod.snd h.symm
          subst hp'
          constructor
          · intro hnone
            unfold getProfile
            rw [hp, hnone]
            rfl
          · intro t ht
            rw [ht]
            refine ⟨rfl, ?_⟩
            rw [ht] at hty
            simp [Option.any] at hty
            exact or_iff_not_imp_left.mpr hty

/-- Concrete state for the C5 witness: user 1 holds a customer profile
and user 2 is another authenticated account. -/
def dbC5v : DB :=
  { users := [⟨1, "alice", "a@x", "", ""⟩, ⟨2, "mallory", "m@x", "", ""⟩]
    profiles := [⟨1, "customer", "", "", "", ""⟩]
    offers := [], details := [], orders := [], reviews := []
    nextUserId := 3, nextOfferId := 1, nextDetailId := 1
    nextOrderId := 1, nextReviewId := 1, now := 0 }

theorem claim_C5_role_mutable_via_patch_witness :
    (2 : Nat) ≠ 1 ∧
    patch_profile dbC5v 2 1
        ⟨none, none, none, none, none, none, none, some "business"⟩ =
      Except.error (ApiError.permissionDenied
        "You do not have permission to edit this profile.") ∧
    profiles_viewset_patch dbC5v 2 1
        ⟨none, none, none, none, none, none, none, some "business"⟩ =
      Except.ok ({ dbC5v with profiles := [⟨1, "business", "", "", "", ""⟩] },
        ⟨1, "business", "", "", "", ""⟩) ∧
    (⟨1, "business", "", "", "", ""⟩ : UserProfile).type = "business" :=
  ⟨by decide,
   (claim_C5_role_mutable_via_patch dbC5v 2 1
      ⟨none, none, none, none, none, none, none, some "business"⟩).1
     (by decide),
   rfl,
   (((claim_C5_role_mutable_via_patch dbC5v 2 1
        ⟨none, none, none, none, none, none, none, some "business"⟩).2.2.2
      ({ dbC5v with profiles := [⟨1, "business", "", "", "", ""⟩] })
      ⟨1, "business", "", "", "", ""⟩ rfl).2 "business" rfl).1⟩

/-- Validated input of `ReviewSerializer` for POST /api/reviews/:
`business_user` is a required FK (must reference an existing user),
`rating` and `description` are plain fields; `reviewer` is read-only
and set server-side. -/
structure ReviewPayload where
  business_user : Nat
  rating : Int
  description : String
  deriving Repr, DecidableEq

/-- `ReviewViewSet.perform_create` (plus the serializer's FK
validation, which DRF runs first): profile lookup (PermissionDenied if
absent), customer-role check, one-review-per-business existence check
(`ValidationError` conflict), then `serializer.save(reviewer=user)`;
the redundant `business_user is None` guard of the source is
unreachable after field validation and not modelled. -/
def create_review (db : DB) (actingUser : Nat) (payload : ReviewPayload) :
    Except ApiError (DB × Review) :=
  if (db.users.find? (fun u => u.id == payload.business_user)).isNone then
    Except.error (ApiError.validation "Invalid pk")
  else
    match getProfile db actingUser with
    | none => Except.error (ApiError.permissionDenied "UserProfile not found.")
    | some profile =>
      if profile.type ≠ "customer" then
        Except.error
          (ApiError.permissionDenied
            "Only users with a customer profile may create reviews.")
      else if db.reviews.any (fun r =>
          r.business_user == payload.business_user &&
          r.reviewer == actingUser) then
        Except.error
          (ApiError.validation "You have already reviewed this business user.")
      else
        let r : Review := ⟨db.nextReviewId, actingUser, payload.business_user,
          payload.rating, payload.description⟩
        Except.ok ({ db with
          reviews := db.reviews ++ [r]
          nextReviewId := db.nextReviewId + 1 }, r)

/-- At most one review per (reviewer, business_user) pair: the
application-level reading of `Review.Meta.unique_together`. -/
def uniqueReviewPairs (rs : List Review) : Prop :=
  rs.Pairwise (fun a b =>
    ¬(a.reviewer = b.reviewer ∧ a.business_user = b.business_user))

/-- C7: once a review by Y for X exists, a second `create_review` by Y
for X fails with the conflict `ValidationError` and persists nothing
(the `Except.error` carries no state), and a successful create
preserves the pairwise uniqueness that mirrors the storage-level
`unique_together` constraint. -/
theorem claim_C7_one_review_per_reviewer_business (db : DB) (yId xId : Nat)
    (payload : ReviewPayload) (hx : payload.business_user = xId)
    (p : UserProfile) (hp : getProfile db yId = some p)
    (hcp : p.type = "customer")
    (hxu : ¬(db.users.find? (fun u => u.id == xId)).isNone = true) :
    (∀ r0 ∈ db.reviews, r0.reviewer = yId → r0.business_user = xId →
      create_review db yId payload =
        Except.error
          (ApiError.validation
            "You have already reviewed this business user.")) ∧
    (uniqueReviewPairs db.reviews →
      ∀ db' r, create_review db yId payload = Except.ok (db', r) →
        uniqueReviewPairs db'.reviews) := by
  constructor
  · intro r0 hr0 hrev hbus
    unfold create_review
    rw [hx, if_neg hxu]
    simp only [hp]
    rw [if_neg (fun hn => hn hcp)]
    have hexists : db.reviews.any (fun r =>
        r.business_user == xId && r.reviewer == yId) = true :=
      List.any_eq_true.mpr ⟨r0, hr0, by rw [hrev, hbus]; simp⟩
    rw [if_pos hexists]
  · intro huniq db' r h
    unfold create_review at h
    by_cases hu : (db.users.find?
        (fun u => u.id == payload.business_user)).isNone = true
    · rw [if_pos hu] at h; cases h
    · rw [if_neg hu] at h
      cases hp : getProfile db yId with
      | none => simp only [hp] at h; cases h
      | some profile =>
          simp only [hp] at h
          by_cases hc : profile.type ≠ "customer"
          · rw [if_pos hc] at h; cases h
          · rw [if_neg hc] at h
            by_cases hex : db.reviews.any (fun r0 =>
                r0.business_user == payload.business_user &&
                r0.reviewer == yId) = true
            · rw [if_pos hex] at h; cases h
            · rw [if_neg hex] at h
              injection h with h
              have hdb' : db' = _ := congrArg Prod.fst h.symm
              subst hdb'
              unfold uniqueReviewPairs
              rw [List.pairwise_append]
              refine ⟨huniq, List.pairwise_singleton _ _, ?_⟩
              intro a ha b hb
              have hb' : b = (⟨db.nextReviewId, yId, payload.business_user,
                  payload.rating, payload.description⟩ : Review) := by
                simpa using hb
              subst hb'
              intro ⟨h1, h2⟩
              have : ¬(a.business_user == payload.business_user &&
                  a.reviewer == yId) = true := by
                intro hcontra
                exact hex (List.any_eq_true.mpr ⟨a, ha, hcontra⟩)
              apply this
              simp [h1, h2]

/-- Concrete state for the C7 witness: customer 1 already reviewed
business user 9. -/
def dbC7 : DB :=
  { users := [⟨9, "biz", "b@x", "", ""⟩, ⟨1, "alice", "a@x", "", ""⟩]
    profiles := [⟨9, "business", "", "", "", ""⟩,
                 ⟨1, "customer", "", "", "", ""⟩]
    offers := [], details := [], orders := []
    reviews := [⟨1, 1, 9, 5, "Great!"⟩]
    nextUserId := 10, nextOfferId := 1, nextDetailId := 1
    nextOrderId := 1, nextReviewId := 2, now := 0 }

theorem claim_C7_one_review_per_reviewer_business_witness :
    (⟨1, 1, 9, 5, "Great!"⟩ : Review) ∈ dbC7.reviews ∧
    create_review dbC7 1 ⟨9, 4, "again"⟩ =
      Except.error
        (ApiError.validation
          "You have already reviewed this business user.") :=
  ⟨by simp [dbC7],
   (claim_C7_one_review_per_reviewer_business dbC7 1 9 ⟨9, 4, "again"⟩
      rfl ⟨1, "customer", "", "", "", ""⟩ rfl rfl (by decide)).1
     ⟨1, 1, 9, 5, "Great!"⟩ (by simp [dbC7]) rfl rfl⟩

/-- Python's `round` to an integer: nearest, ties to even
(banker's rounding). -/
def roundHalfEven (q : Rat) : Int :=
  if q - ⌊q⌋ < 1 / 2 then ⌊q⌋
  else if 1 / 2 < q - ⌊q⌋ then ⌊q⌋ + 1
  else if ⌊q⌋ % 2 = 0 then ⌊q⌋ else ⌊q⌋ + 1

/-- Python's `round(x, 1)`. -/
def pyRound1 (q : Rat) : Rat :=
  (roundHalfEven (10 * q) : Rat) / 10

/-- The JSON body of GET /api/base-info/. -/
structure BaseInfo where
  review_count : Nat
  average_rating : Rat
  business_profile_count : Nat
  offer_count : Nat
  deriving Repr, DecidableEq

/-- Django's `aggregate(Avg('rating'))`: `None` when no rows exist,
otherwise the arithmetic mean of the ratings. -/
def avgRating (db : DB) : Option Rat :=
  if db.reviews = [] then none
  else some ((db.reviews.map (fun r => (r.rating : Rat))).sum /
    (db.reviews.length : Rat))

/-- `base_info_view` (reviews_app/api/views.py): the four aggregate
fields, with Python's falsy test `round(avg_rating, 1) if avg_rating
else 0.0` sending both `None` and a zero mean to `0.0`.  A pure
function of the state: no side effects. -/
def base_info (db : DB) : BaseInfo :=
  { review_count := db.reviews.length
    average_rating :=
      match avgRating db with
      | none => 0
      | some a => if a = 0 then 0 else pyRound1 a
    business_profile_count :=
      (db.profiles.filter (fun p => p.type == "business")).length
    offer_count := db.offers.length }

theorem roundHalfEven_abs_le (q : Rat) :
    |(roundHalfEven q : Rat) - q| ≤ 1 / 2 := by
  unfold roundHalfEven
  have h1 : ((⌊q⌋ : Int) : Rat) ≤ q := Int.floor_le q
  have h2 : q < (⌊q⌋ : Int) + 1 := Int.lt_floor_add_one q
  by_cases hc1 : q - (⌊q⌋ : Rat) < 1 / 2
  · rw [if_pos hc1, abs_le]
    constructor <;> push_cast <;> linarith
  · rw [if_neg hc1]
    by_cases hc2 : (1 : Rat) / 2 < q - ⌊q⌋
    · rw [if_pos hc2, abs_le]
      constructor <;> push_cast <;> linarith
    · rw [if_neg hc2]
      by_cases hc3 : ⌊q⌋ % 2 = 0
      · rw [if_pos hc3, abs_le]
        constructor <;> push_cast <;> linarith
      · rw [if_neg hc3, abs_le]
        constructor <;> push_cast <;> linarith

theorem pyRound1_zero : pyRound1 0 = 0 := by
  norm_num [pyRound1, roundHalfEven]

theorem pyRound1_spec (q : Rat) :
    ∃ k : Int, pyRound1 q = (k : Rat) / 10 ∧ |pyRound1 q - q| ≤ 1 / 20 := by
  refine ⟨roundHalfEven (10 * q), rfl, ?_⟩
  have h := roundHalfEven_abs_le (10 * q)
  have hq : pyRound1 q - q = ((roundHalfEven (10 * q) : Rat) - 10 * q) / 10 := by
    unfold pyRound1
    ring
  have h10 : |(10 : Rat)| = 10 := by
    norm_num [abs_of_nonneg]
  rw [hq, abs_div, h10]
  linarith

/-- C8: `base-info` returns `average_rating = 0` with zero reviews and
the mean rating rounded to one decimal (a multiple of `1/10` within
`1/20` of the exact mean) otherwise, together with the review count,
the business-profile count and the offer count; `base_info` is a pure
function of the state, so the endpoint has no side effects. -/
theorem claim_C8_base_info_stats (db : DB) :
    (db.reviews = [] → (base_info db).average_rating = 0) ∧
    (db.reviews ≠ [] →
      (base_info db).average_rating =
        pyRound1 ((db.reviews.map (fun r => (r.rating : Rat))).sum /
          (db.reviews.length : Rat)) ∧
      ∃ k : Int, (base_info db).average_rating = (k : Rat) / 10 ∧
        |(base_info db).average_rating -
          (db.reviews.map (fun r => (r.rating : Rat))).sum /
            (db.reviews.length : Rat)| ≤ 1 / 20) ∧
    (base_info db).review_count = db.reviews.length ∧
    (base_info db).business_profile_count =
      (db.profiles.filter (fun p => p.type == "business")).length ∧
    (base_info db).offer_count = db.offers.length := by
  refine ⟨?_, ?_, rfl, rfl, rfl⟩
  · intro h
    simp only [base_info, avgRating, if_pos h]
  · intro hne
    simp only [base_info, avgRating, if_neg hne]
    set m : Rat := (db.reviews.map (fun r => (r.rating : Rat))).sum /
      (db.reviews.length : Rat) with hm
    by_cases hz : m = 0
    · rw [if_pos hz, hz, pyRound1_zero]
      exact ⟨rfl, 0, by norm_num⟩
    · rw [if_neg hz]
      exact ⟨rfl, pyRound1_spec m⟩

/-- Concrete state for the C8 witness: two reviews rated 4 and 5. -/
def dbC8 : DB :=
  { users := [⟨9, "biz", "b@x", "", ""⟩, ⟨1, "alice", "a@x", "", ""⟩,
              ⟨2, "bob", "bo@x", "", ""⟩]
    profiles := [⟨9, "business", "", "", "", ""⟩,
                 ⟨1, "customer", "", "", "", ""⟩,
                 ⟨2, "customer", "", "", "", ""⟩]
    offers := [], details := [], orders := []
    reviews := [⟨1, 1, 9, 4, "ok"⟩, ⟨2, 2, 9, 5, "top"⟩]
    nextUserId := 10, nextOfferId := 1, nextDetailId := 1
    nextOrderId := 1, nextReviewId := 3, now := 0 }

theorem claim_C8_base_info_stats_witness :
    dbC8.reviews ≠ [] ∧
    (base_info dbC8).average_rating =
      pyRound1 ((dbC8.reviews.map (fun r => (r.rating : Rat))).sum /
        (dbC8.reviews.length : Rat)) ∧
    (base_info dbC8).review_count = 2 :=
  ⟨by simp [dbC8],
   ((claim_C8_base_info_stats dbC8).2.1 (by simp [dbC8])).1,
   by rw [(claim_C8_base_info_stats dbC8).2.2.1]; rfl⟩

/-- The Django join `offer_detail__offer__creator_id` for one order:
the creator of the offer owning the order's tier, when both rows
exist. -/
def orderBusinessId (db : DB) (o : Order) : Option Nat :=
  match db.details.find? (fun d => d.id == o.offer_detail) with
  | none => none
  | some d =>
      match db.offers.find? (fun f => f.id == d.offer) with
      | none => none
      | some f => some f.creator

/-- `OrderCountView.retrieve` (orders_app/api/views.py): 404 when no
`User` row has the given id, otherwise the count of orders whose tier
belongs to an offer created by that id and whose status is
`in_progress`; no check that the account's role is business. -/
def OrderCountView_retrieve (db : DB) (business_user_id : Nat) :
    Except ApiError Nat :=
  if ¬ db.users.any (fun u => u.id == business_user_id) then
    Except.error (ApiError.notFound "User not found")
  else
    Except.ok ((db.orders.filter (fun o =>
      orderBusinessId db o == some business_user_id &&
      o.status == "in_progress")).length)

/-- `CompletedOrderCountView.retrieve`: same with status `completed`. -/
def CompletedOrderCountView_retrieve (db : DB) (business_user_id : Nat) :
    Except ApiError Nat :=
  if ¬ db.users.any (fun u => u.id == business_user_id) then
    Except.error (ApiError.notFound "User not found")
  else
    Except.ok ((db.orders.filter (fun o =>
      orderBusinessId db o == some business_user_id &&
      o.status == "completed")).length)

/-- C9: both count endpoints 404 exactly when no account with the given
id exists; for any existing account they return the plain order count
for that id — and since neither result reads `db.profiles`, the
account's role (or a missing profile) is never checked: replacing the
whole profile table changes nothing. -/
theorem claim_C9_order_count_404_iff_unknown_user (db : DB) (bid : Nat) :
    ((¬ ∃ u ∈ db.users, u.id = bid) →
      OrderCountView_retrieve db bid =
        Except.error (ApiError.notFound "User not found") ∧
      CompletedOrderCountView_retrieve db bid =
        Except.error (ApiError.notFound "User not found")) ∧
    ((∃ u ∈ db.users, u.id = bid) →
      OrderCountView_retrieve db bid =
        Except.ok ((db.orders.filter (fun o =>
          orderBusinessId db o == some bid &&
          o.status == "in_progress")).length) ∧
      CompletedOrderCountView_retrieve db bid =
        Except.ok ((db.orders.filter (fun o =>
          orderBusinessId db o == some bid &&
          o.status == "completed")).length)) ∧
    (∀ ps : List UserProfile,
      OrderCountView_retrieve { db with profiles := ps } bid =
        OrderCountView_retrieve db bid ∧
      CompletedOrderCountView_retrieve { db with profiles := ps } bid =
        CompletedOrderCountView_retrieve db bid) := by
  refine ⟨?_, ?_, ?_⟩
  · intro h
    have hna : ¬ db.users.any (fun u => u.id == bid) = true := by
      intro ha
      rcases List.any_eq_true.mp ha with ⟨u, hu, hub⟩
      exact h ⟨u, hu, by simpa using hub⟩
    constructor
    · unfold OrderCountView_retrieve
      rw [if_pos hna]
    · unfold CompletedOrderCountView_retrieve
      rw [if_pos hna]
  · intro h
    rcases h with ⟨u, hu, hub⟩
    have ha : db.users.any (fun u => u.id == bid) = true :=
      List.any_eq_true.mpr ⟨u, hu, by simpa using hub⟩
    constructor
    · unfold OrderCountView_retrieve
      rw [if_neg (by simp [ha])]
    · unfold CompletedOrderCountView_retrieve
      rw [if_neg (by simp [ha])]
  · intro ps
    exact ⟨rfl, rfl⟩

/-- Concrete state for the C9 witness: account 2 exists with a customer
profile and no offers, account 7 does not exist. -/
def dbC9 : DB :=
  { users := [⟨9, "biz", "b@x", "", ""⟩, ⟨2, "cust", "c@x", "", ""⟩]
    profiles := [⟨9, "business", "", "", "", ""⟩,
                 ⟨2, "customer", "", "", "", ""⟩]
    offers := [⟨1, 9, "Logo", "d"⟩]
    details := [⟨1, 1, "B", 2, 7, 100, [], "basic"⟩]
    orders := [⟨1, 2, 1, "in_progress", 0⟩]
    reviews := []
    nextUserId := 10, nextOfferId := 2, nextDetailId := 2
    nextOrderId := 2, nextReviewId := 1, now := 1 }

theorem claim_C9_order_count_404_iff_unknown_user_witness :
    OrderCountView_retrieve dbC9 7 =
      Except.error (ApiError.notFound "User not found") ∧
    OrderCountView_retrieve dbC9 2 = Except.ok 0 ∧
    OrderCountView_retrieve dbC9 9 = Except.ok 1 :=
  ⟨((claim_C9_order_count_404_iff_unknown_user dbC9 7).1 (by decide)).1,
   by
    rw [((claim_C9_order_count_404_iff_unknown_user dbC9 2).2.1
      ⟨⟨2, "cust", "c@x", "", ""⟩, by simp [dbC9], rfl⟩).1]
    rfl,
   by
    rw [((claim_C9_order_count_404_iff_unknown_user dbC9 9).2.1
      ⟨⟨9, "biz", "b@x", "", ""⟩, by simp [dbC9], rfl⟩).1]
    rfl⟩

/-- A partial-update payload for `OrderSerializer` on PATCH
/api/orders/{id}/: both `offer_detail_id` and `status` are writable
(only `created_at`/`updated_at` are read-only; `buyer` is not a
serializer field at all). -/
structure OrderPatch where
  offer_detail_id : Option Nat
  status : Option String
  deriving Repr, DecidableEq

/-- `OrderViewSet.update` for PATCH: `get_object` resolves the id
inside the user-scoped queryset (buyer or tier's offer creator), the
custom check rejects anyone but the current tier's offer creator with
403, then the serializer validates the patch (`offer_detail_id` against
all existing tiers, `status` against the model choices) and applies it;
`buyer` and `created_at` are untouched. -/
def update_order (db : DB) (actingUser orderId : Nat) (patch : OrderPatch) :
    Except ApiError (DB × Order) :=
  match (db.orders.filter (fun o =>
      o.buyer == actingUser ||
      orderBusinessId db o == some actingUser)).find?
      (fun o => o.id == orderId) with
  | none => Except.error (ApiError.notFound "Not found.")
  | some inst =>
    if orderBusinessId db inst ≠ some actingUser then
      Except.error
        (ApiError.permissionDenied
          "You do not have permission to update this order.")
    else if patch.offer_detail_id.any
        (fun t => (db.details.find? (fun d => d.id == t)).isNone) then
      Except.error (ApiError.validation "Invalid pk")
    else if patch.status.any (fun s => !(statusChoices.contains s)) then
      Except.error (ApiError.validation "not a valid choice.")
    else
      let o' : Order := { inst with
        offer_detail := patch.offer_detail_id.getD inst.offer_detail
        status := patch.status.getD inst.status }
      Except.ok ({ db with
        orders := db.orders.map (fun x => if x.id == orderId then o' else x) },
        o')

/-- C10: a PATCH by the order's current offer creator that supplies
`offer_detail_id` referencing any existing tier — no hypothesis ties
that tier to the acting user's own offers — succeeds and re-points the
order to that tier, while `buyer` and `created_at` stay unchanged. -/
theorem claim_C10_update_order_repoints_tier (db : DB)
    (actingUser orderId : Nat) (patch : OrderPatch) (inst : Order) (t : Nat)
    (h1 : (db.orders.filter (fun o =>
        o.buyer == actingUser ||
        orderBusinessId db o == some actingUser)).find?
        (fun o => o.id == orderId) = some inst)
    (h2 : orderBusinessId db inst = some actingUser)
    (h3 : patch.offer_detail_id = some t)
    (h4 : (db.details.find? (fun d => d.id == t)).isNone = false)
    (h5 : ∀ s, patch.status = some s → statusChoices.contains s) :
    update_order db actingUser orderId patch =
      Except.ok ({ db with
        orders := db.orders.map (fun x => if x.id == orderId then
          { inst with offer_detail := t
                      status := patch.status.getD inst.status } else x) },
        { inst with offer_detail := t
                    status := patch.status.getD inst.status }) ∧
    ({ inst with offer_detail := t
                 status := patch.status.getD inst.status } : Order).buyer =
      inst.buyer ∧
    ({ inst with offer_detail := t
                 status := patch.status.getD inst.status } : Order).created_at =
      inst.created_at := by
  refine ⟨?_, rfl, rfl⟩
  unfold update_order
  rw [h1]
  simp only []
  rw [if_neg (fun hn => hn h2)]
  have hdid : patch.offer_detail_id.any
      (fun x => (db.details.find? (fun d => d.id == x)).isNone) = false := by
    rw [h3]
    simpa [Option.any] using h4
  rw [if_neg (by simp [hdid])]
  have hst : patch.status.any (fun s => !(statusChoices.contains s)) = false := by
    cases hps : patch.status with
    | none => rfl
    | some s =>
        simp only [Option.any]
        simpa using h5 s hps
  rw [if_neg (by rw [hst]; simp)]
  rw [h3]
  rfl

/-- Concrete state for the C10 witness: business 9 owns offer 1 / tier
1, a different business 8 owns offer 2 / tier 2, and customer 2 has an
order on tier 1. -/
def dbC10 : DB :=
  { users := [⟨9, "biz", "b@x", "", ""⟩, ⟨8, "other", "o@x", "", ""⟩,
              ⟨2, "cust", "c@x", "", ""⟩]
    profiles := [⟨9, "business", "", "", "", ""⟩,
                 ⟨8, "business", "", "", "", ""⟩,
                 ⟨2, "customer", "", "", "", ""⟩]
    offers := [⟨1, 9, "Logo", "d"⟩, ⟨2, 8, "Web", "d"⟩]
    details := [⟨1, 1, "B", 2, 7, 100, [], "basic"⟩,
                ⟨2, 2, "B", 1, 3, 50, [], "basic"⟩]
    orders := [⟨1, 2, 1, "in_progress", 3⟩]
    reviews := []
    nextUserId := 10, nextOfferId := 3, nextDetailId := 3
    nextOrderId := 2, nextReviewId := 1, now := 4 }

theorem claim_C10_update_order_repoints_tier_witness :
    orderBusinessId dbC10 ⟨1, 2, 1, "in_progress", 3⟩ = some 9 ∧
    (dbC10.offers.find? (fun f => f.id == 2)).map (fun f => f.creator) =
      some 8 ∧
    update_order dbC10 9 1 ⟨some 2, none⟩ =
      Except.ok ({ dbC10 with orders := [⟨1, 2, 2, "in_progress", 3⟩] },
        ⟨1, 2, 2, "in_progress", 3⟩) :=
  ⟨rfl, rfl, by
    have h := (claim_C10_update_order_repoints_tier dbC10 9 1 ⟨some 2, none⟩
      ⟨1, 2, 1, "in_progress", 3⟩ 2 rfl rfl rfl rfl
      (fun s hs => by cases hs)).1
    simpa [dbC10] using h⟩

/-- `RegistrationSerializer.create` (users_app/api/serializers.py),
executed after validation under the framework's default autocommit
(the source contains no `transaction.atomic` block and imports no
transaction machinery anywhere): `User.objects.create_user` commits
the account row, then `UserProfile.objects.create` runs as a second
independent write.  `profileFault` injects a storage failure at that
second insert; the result pairs the propagated error (if any) with the
state that is visible afterwards. -/
def registration_create (db : DB) (username email : String)
    (user_type : String) (profileFault : Bool) : Option String × DB :=
  let user : User := ⟨db.nextUserId, username, email, "", ""⟩
  let db1 := { db with
    users := db.users ++ [user]
    nextUserId := db.nextUserId + 1 }
  if profileFault then (some "storage error", db1)
  else (none, { db1 with
    profiles := db1.profiles ++ [⟨user.id, user_type, "", "", "", ""⟩] })

/-- `OfferWriteSerializer.create` under the same autocommit model:
`Offer.objects.create` commits the offer row, then the per-detail
`OfferDetail.objects.create` loop runs; `detailFault` injects a storage
failure before the first detail insert. -/
def offer_create_with_fault (db : DB) (creator : Nat)
    (title description : String) (details_data : List DetailPayload)
    (detailFault : Bool) : Option String × DB :=
  let offer : Offer := ⟨db.nextOfferId, creator, title, description⟩
  let db1 := { db with
    offers := db.offers ++ [offer]
    nextOfferId := db.nextOfferId + 1 }
  if detailFault then (some "storage error", db1)
  else (none, { db1 with
    details := db1.details ++ attach_ids offer.id db.nextDetailId details_data
    nextDetailId := db.nextDetailId + details_data.length })

/-- A valid 3-tier payload for C6. -/
def ddC6 : List DetailPayload :=
  [⟨"B", 2, 7, 100, [], "basic"⟩,
   ⟨"S", 3, 5, 200, [], "standard"⟩,
   ⟨"P", 5, 3, 300, [], "premium"⟩]

/-- Concrete pre-state for C6: one business user, nothing else. -/
def dbC6 : DB :=
  { users := [⟨9, "biz", "b@x", "", ""⟩]
    profiles := [⟨9, "business", "", "", "", ""⟩]
    offers := [], details := [], orders := [], reviews := []
    nextUserId := 3, nextOfferId := 1, nextDetailId := 1
    nextOrderId := 1, nextReviewId := 1, now := 0 }

/-- C6 evaluated at the failing inputs: with a storage fault at the
second write, registration leaves account 3 visible with no profile,
and offer creation leaves offer 1 visible with zero tiers — exactly the
intermediate states the claim says can never be observed. -/
theorem claim_C6_multi_row_writes_not_atomic :
    (registration_create dbC6 "carol" "c@x" "customer" true).1 =
      some "storage error" ∧
    (registration_create dbC6 "carol" "c@x" "customer" true).2.users.any
      (fun u => u.id == 3) = true ∧
    (registration_create dbC6 "carol" "c@x" "customer" true).2.profiles.any
      (fun p => p.user == 3) = false ∧
    (offer_create_with_fault dbC6 9 "Logo" "d" ddC6 true).1 =
      some "storage error" ∧
    (offer_create_with_fault dbC6 9 "Logo" "d" ddC6 true).2.offers.any
      (fun o => o.id == 1) = true ∧
    offerDetails (offer_create_with_fault dbC6 9 "Logo" "d" ddC6 true).2 1 =
      [] :=
  ⟨rfl, rfl, rfl, rfl, rfl, rfl⟩

end Coderr
